import Mathlib

/-!
Shallow embedding of the injection-side subsystem of messenger-desktop:
the unread counter (src/injection/unread-counter.ts), the theme injector
(src/injection/theme-injector.ts), the notification interceptor
(notification-interceptor script) and the privacy guard
(src/injection/privacy-guard.ts).  Each definition mirrors one source
function; theorems at the end settle the frozen claims.
-/

/-! ## Unread counter (src/injection/unread-counter.ts) -/

/-- Decimal value of a run of ASCII digits, as computed by parseInt(ds, 10). -/
def natOfDigits (ds : List Char) : Nat :=
  ds.foldl (fun a c => a * 10 + (c.toNat - 48)) 0

/-- Leftmost match of the JS regex `\((\d+)\)`: scan left to right for a
literal open parenthesis followed by one or more digits and a close
parenthesis; yield the digits' value.  The digit run is maximal (the regex
`\d+` is greedy, and backtracking cannot help because a digit is never a
close parenthesis). -/
def scanParen : List Char → Option Nat
  | [] => none
  | c :: rest =>
    if c = '(' then
      let ds := rest.takeWhile Char.isDigit
      if ds ≠ [] ∧ (rest.drop ds.length).head? = some ')' then
        some (natOfDigits ds)
      else scanParen rest
    else scanParen rest

/-- The whitespace class of the JS regex `\s`, restricted to the characters
that can occur here (space, tab, newline, carriage return, vertical tab,
form feed, no-break space). -/
def isSpaceJs (c : Char) : Bool :=
  c = ' ' || c = '\t' || c = '\n' || c = '\r' ||
  c = '\x0b' || c = '\x0c' || c = ' '

/-- Leftmost match of the JS regex `·\s*(\d+)`: scan left to right for the
separator character, skip whitespace, and require one or more digits. -/
def scanDot : List Char → Option Nat
  | [] => none
  | c :: rest =>
    if c = '·' then
      let ds := (rest.dropWhile isSpaceJs).takeWhile Char.isDigit
      if ds ≠ [] then some (natOfDigits ds) else scanDot rest
    else scanDot rest

/-- parseUnreadCount: try the parenthesized pattern first, then the
separator pattern, return the first match or nothing. -/
def parseUnreadCount (title : String) : Option Nat :=
  match scanParen title.data with
  | some n => some n
  | none => scanDot title.data

/-- Initial value of the module-level `lastUnreadCount` variable. -/
def initialLastUnread : Int := -1

/-- updateUnreadCount: given the current `lastUnreadCount` and the new
count, return the new `lastUnreadCount` together with the list of
`update_unread_count` commands invoked over the bridge (empty when the
count equals the last forwarded value). -/
def updateUnreadCount (last : Int) (count : Int) : Int × List Int :=
  if count = last then (last, [])
  else (count, [count])

/-! ## Theme injector (src/injection/theme-injector.ts) -/

/-- The theme table: the built-in `light` theme maps to the empty string. -/
def themes : List (String × String) :=
  [("light", ""),
   ("dark", "body\x7bbackground:#1a1a2e!important;color:#e0e0e0!important\x7d"),
   ("darker", "body\x7bbackground:#0d0d1a!important;color:#e0e0e0!important\x7d"),
   ("oled", "body\x7bbackground:#000!important;color:#e0e0e0!important\x7d")]

/-- JS property read `themes[themeName]`: the entry if present, else none. -/
def themeLookup (name : String) : Option String :=
  (themes.find? (fun t => t.1 = name)).map (fun t => t.2)

/-- The injector's module state: `currentTheme` and the owned style node
(`none` when no node is attached, otherwise its text content). -/
structure ThemeState where
  currentTheme : String
  styleElement : Option String
deriving DecidableEq

/-- Initial module state: `currentTheme = 'light'`, no style node. -/
def initThemeState : ThemeState := ⟨"light", none⟩

/-- applyTheme: `if (!themes[themeName])` log an unknown-theme error and
return (the guard fires when the entry is absent or the empty string);
otherwise set `currentTheme`, ensure the style node exists and replace its
content.  The Bool result records whether the unknown-theme rejection was
logged. -/
def applyTheme (name : String) (s : ThemeState) : ThemeState × Bool :=
  match themeLookup name with
  | none => (s, true)
  | some css =>
    if css = "" then (s, true)
    else ({ currentTheme := name, styleElement := some css }, false)

/-- removeTheme: if a style node exists, remove it and reset
`currentTheme` to `'light'`; otherwise do nothing. -/
def removeTheme (s : ThemeState) : ThemeState :=
  match s.styleElement with
  | some _ => ⟨"light", none⟩
  | none => s

/-- The `set-theme` event listener registered by init: payloads `remove`
and `default` call removeTheme, every other payload is passed to
applyTheme.  The Bool result records a logged unknown-theme rejection. -/
def onSetTheme (payload : String) (s : ThemeState) : ThemeState × Bool :=
  if payload = "remove" ∨ payload = "default" then (removeTheme s, false)
  else applyTheme payload s

/-! ## Notification interceptor (NotificationInterceptor.intercept) -/

/-- The options object passed to the page's Notification constructor
(fields absent or falsy collapse to the defaults below, as with
`options?.body || ''`). -/
structure NotifOptions where
  body : Option String
  icon : Option String
  tag : Option String

/-- Payload of one `show_notification` command sent over the bridge. -/
structure ShowNotificationCmd where
  title : String
  body : String
  icon : String
  tag : String
deriving DecidableEq

/-- Observable surface of the original `window.Notification`: its
`permission` property and the value its `requestPermission` resolves to. -/
structure OrigNotifApi where
  permission : String
  requestPermissionResult : String

/-- Observable surface of the shim after intercept(): the same two
permission-query members, copied from the original. -/
structure InterceptedApi where
  permission : String
  requestPermissionResult : String

/-- Initial value of the interceptor's `enabled` flag. -/
def interceptorEnabledDefault : Bool := true

/-- The shimmed Notification constructor: when enabled it invokes the
`show_notification` command with the structured fields and returns null;
either way it creates no page-visible notification.  The result is the
list of bridge commands issued and the number of page notifications
constructed. -/
def interceptedConstruct (enabled : Bool) (title : String)
    (o : Option NotifOptions) : List ShowNotificationCmd × Nat :=
  if enabled = false then ([], 0)
  else ([⟨title,
          ((o.bind NotifOptions.body).getD ""),
          ((o.bind NotifOptions.icon).getD ""),
          ((o.bind NotifOptions.tag).getD "")⟩], 0)

/-- intercept(): replace the constructor and copy `requestPermission` and
`permission` from the captured original onto the shim. -/
def interceptApi (orig : OrigNotifApi) : InterceptedApi :=
  { permission := orig.permission,
    requestPermissionResult := orig.requestPermissionResult }

/-! ## Privacy guard (src/injection/privacy-guard.ts) -/

/-- PrivacyConfig: the four named toggles (the interface has no other
field). -/
structure PrivacyConfig where
  blockTyping : Bool
  blockReadReceipts : Bool
  hideLastActive : Bool
  blockLinkPreviews : Bool
deriving DecidableEq

/-- defaultConfig: every protection on. -/
def defaultConfig : PrivacyConfig := ⟨true, true, true, true⟩

/-- A `Partial<PrivacyConfig>` event payload: each field optionally
present. -/
structure PrivacyPatch where
  blockTyping : Option Bool
  blockReadReceipts : Option Bool
  hideLastActive : Option Bool
  blockLinkPreviews : Option Bool

/-- The spread `{ ...privacyConfig, ...newConfig }`: fields present in the
patch override the current configuration. -/
def mergeConfig (c : PrivacyConfig) (p : PrivacyPatch) : PrivacyConfig :=
  { blockTyping := p.blockTyping.getD c.blockTyping,
    blockReadReceipts := p.blockReadReceipts.getD c.blockReadReceipts,
    hideLastActive := p.hideLastActive.getD c.hideLastActive,
    blockLinkPreviews := p.blockLinkPreviews.getD c.blockLinkPreviews }

/-- JS `s.includes(pat)`: substring containment. -/
def strIncludes (s pat : String) : Bool :=
  decide (pat.data <:+: s.data)

/-- A URL matches the blocklist when it contains the typing or the
composing marker. -/
def containsMarker (url : String) : Bool :=
  strIncludes url "typing" || strIncludes url "composing"

/-- Outcome of a call to `XMLHttpRequest.prototype.open` after patching:
either the call is short-circuited, or the original primitive is invoked
with the given arguments. -/
inductive XhrResult where
  | blocked
  | original (method : String) (url : String)
deriving DecidableEq

/-- The patched `open`: block when the url string contains a marker,
otherwise apply the stored original with identical arguments. -/
def patchedXhrOpen (method url : String) : XhrResult :=
  if containsMarker url then XhrResult.blocked
  else XhrResult.original method url

/-- The first argument of `fetch`: a string, a Request (carrying a url),
or some other object such as a URL instance (which the guard maps to the
empty string). -/
inductive FetchInput where
  | str (s : String)
  | request (url : String)
  | other
deriving DecidableEq

/-- The `init` argument of `fetch`; only the body is relevant here. -/
structure FetchInit where
  body : Option String
deriving DecidableEq

/-- Url the guard derives from the input: the string itself, a Request's
url, and the empty string for anything else (such as a URL instance). -/
def fetchUrlOf : FetchInput → String
  | FetchInput.str s => s
  | FetchInput.request u => u
  | FetchInput.other => ""

/-- Outcome of a call to `window.fetch` after patching: either the promise
rejects with the privacy-guard error, or the original primitive is invoked
with identical arguments. -/
inductive FetchResult where
  | rejected
  | forwarded (input : FetchInput) (init : Option FetchInit)
deriving DecidableEq

/-- The patched `fetch`: derive a url from the input, throw when it is
non-empty and contains a marker, otherwise apply the stored original to
exactly `[input, init]`. -/
def patchedFetch (input : FetchInput) (ini : Option FetchInit) : FetchResult :=
  let url := fetchUrlOf input
  if url ≠ "" ∧ containsMarker url then FetchResult.rejected
  else FetchResult.forwarded input ini

/-- A style element attached by createStyleElement: DOM nodes are distinct
objects, modelled by a creation id alongside the css text. -/
structure StyleNode where
  id : Nat
  css : String
deriving DecidableEq

/-- The guard's module state: the active configuration, the document's
list of attached style nodes, the guard's own `styleElements` array, a
fresh-id counter for new DOM nodes, and the patch state of the two network
primitives.  The originals are captured once at module load
(`_originalXhrOpen`, `_originalFetch`); `xhrLayers`/`fetchLayers` count
how many wrapper layers sit over each captured original. -/
structure GuardState where
  config : PrivacyConfig
  domNodes : List StyleNode
  styleElements : List StyleNode
  nextId : Nat
  xhrPatched : Bool
  fetchPatched : Bool
  xhrLayers : Nat
  fetchLayers : Nat
deriving DecidableEq

/-- Module-load state over a host document `dom` (which may already hold
foreign style nodes with ids below `nid`): default configuration, no
injected styles, primitives unpatched, originals just captured. -/
def initGuardState (dom : List StyleNode) (nid : Nat) : GuardState :=
  { config := defaultConfig, domNodes := dom, styleElements := [],
    nextId := nid, xhrPatched := false, fetchPatched := false,
    xhrLayers := 0, fetchLayers := 0 }

/-- The css text injected for the read-receipts toggle. -/
def seenCss : String := "[aria-label*=\"Seen\"]\x7bdisplay:none!important\x7d"

/-- The css text injected for the last-active toggle. -/
def lastActiveCss : String :=
  "[aria-label*=\"last active\"],[data-last-active=\"true\"]\x7bdisplay:none!important\x7d"

/-- The css text injected for the link-previews toggle. -/
def linkPreviewCss : String :=
  "[data-preview=\"true\"],.link-preview\x7bdisplay:none!important\x7d"

/-- createStyleElement: make a new style node with the css, append it to
document.head and push it onto `styleElements`. -/
def createStyleElement (css : String) (s : GuardState) : GuardState :=
  let node : StyleNode := ⟨s.nextId, css⟩
  { s with domNodes := s.domNodes ++ [node],
           styleElements := s.styleElements ++ [node],
           nextId := s.nextId + 1 }

/-- applyPrivacyRules: remove every node in `styleElements` from the
document and reset the array; if blockTyping is set, wrap each unpatched
network primitive once (guarded by the `_xhrPatched`/`_fetchPatched`
markers) over the stored original; then inject one style node per enabled
hiding toggle. -/
def applyPrivacyRules (s : GuardState) : GuardState :=
  let s1 : GuardState :=
    { s with domNodes := s.domNodes.filter (fun n => decide (n ∉ s.styleElements)),
             styleElements := [] }
  let s2 : GuardState :=
    if s1.config.blockTyping then
      let sa : GuardState :=
        if s1.xhrPatched = false then
          { s1 with xhrLayers := s1.xhrLayers + 1, xhrPatched := true }
        else s1
      if sa.fetchPatched = false then
        { sa with fetchLayers := sa.fetchLayers + 1, fetchPatched := true }
      else sa
    else s1
  let s3 : GuardState :=
    if s2.config.blockReadReceipts then createStyleElement seenCss s2 else s2
  let s4 : GuardState :=
    if s3.config.hideLastActive then createStyleElement lastActiveCss s3 else s3
  if s4.config.blockLinkPreviews then createStyleElement linkPreviewCss s4 else s4

/-- updateConfig: merge the pushed partial configuration into the current
one, then re-apply the rules. -/
def updateConfig (p : PrivacyPatch) (s : GuardState) : GuardState :=
  applyPrivacyRules { s with config := mergeConfig s.config p }

/-- init(): apply the rules once with the default configuration (the
`update-privacy` listener then feeds updateConfig). -/
def initPrivacy (s : GuardState) : GuardState := applyPrivacyRules s

/-- A sequence of `update-privacy` pushes applied in arrival order. -/
def runUpdates (ps : List PrivacyPatch) (s : GuardState) : GuardState :=
  ps.foldl (fun s p => updateConfig p s) s

/-- The configuration reached after a list of pushes (pure part of
runUpdates). -/
def applyPushes (c : PrivacyConfig) (ps : List PrivacyPatch) : PrivacyConfig :=
  ps.foldl mergeConfig c

/-- The behaviour currently installed on `XMLHttpRequest.prototype.open`:
the patched wrapper when `_xhrPatched` is set, else the original. -/
def xhrOpenBehavior (s : GuardState) (method url : String) : XhrResult :=
  if s.xhrPatched then patchedXhrOpen method url
  else XhrResult.original method url

/-- The behaviour currently installed on `window.fetch`. -/
def fetchBehavior (s : GuardState) (input : FetchInput)
    (ini : Option FetchInit) : FetchResult :=
  if s.fetchPatched then patchedFetch input ini
  else FetchResult.forwarded input ini

/-- The css texts implied by a configuration's true hiding toggles, in
injection order. -/
def impliedCss (c : PrivacyConfig) : List String :=
  (if c.blockReadReceipts then [seenCss] else []) ++
  (if c.hideLastActive then [lastActiveCss] else []) ++
  (if c.blockLinkPreviews then [linkPreviewCss] else [])

/-- The style nodes applyPrivacyRules creates from configuration `c` when
the fresh-id counter starts at `nid`. -/
def newStyleNodes (c : PrivacyConfig) (nid : Nat) : List StyleNode :=
  let l1 := if c.blockReadReceipts then [StyleNode.mk nid seenCss] else []
  let l2 := if c.hideLastActive then
      [StyleNode.mk (nid + l1.length) lastActiveCss] else []
  let l3 := if c.blockLinkPreviews then
      [StyleNode.mk (nid + l1.length + l2.length) linkPreviewCss] else []
  l1 ++ l2 ++ l3

/-- Both network primitives are wrapped, each by exactly one layer over
the stored original. -/
def GuardPatchedInv (s : GuardState) : Prop :=
  s.xhrPatched = true ∧ s.fetchPatched = true ∧
  s.xhrLayers = 1 ∧ s.fetchLayers = 1

/-! ## Helper lemmas -/

theorem applyPrivacyRules_eq (s : GuardState) :
    applyPrivacyRules s =
    { config := s.config,
      domNodes := s.domNodes.filter (fun n => decide (n ∉ s.styleElements)) ++
        newStyleNodes s.config s.nextId,
      styleElements := newStyleNodes s.config s.nextId,
      nextId := s.nextId + (newStyleNodes s.config s.nextId).length,
      xhrPatched := s.xhrPatched || s.config.blockTyping,
      fetchPatched := s.fetchPatched || s.config.blockTyping,
      xhrLayers := s.xhrLayers +
        (if s.config.blockTyping then (if s.xhrPatched then 0 else 1) else 0),
      fetchLayers := s.fetchLayers +
        (if s.config.blockTyping then (if s.fetchPatched then 0 else 1) else 0) } := by
  obtain ⟨c, dom, se, nid, xp, fp, xl, fl⟩ := s
  obtain ⟨bt, brr, hla, blp⟩ := c
  cases bt <;> cases xp <;> cases fp <;> cases brr <;> cases hla <;> cases blp <;>
    simp [applyPrivacyRules, createStyleElement, newStyleNodes]

theorem newStyleNodes_css (c : PrivacyConfig) (n : Nat) :
    (newStyleNodes c n).map StyleNode.css = impliedCss c := by
  obtain ⟨bt, brr, hla, blp⟩ := c
  cases brr <;> cases hla <;> cases blp <;> simp [newStyleNodes, impliedCss]

theorem newStyleNodes_id_ge (c : PrivacyConfig) (n : Nat) :
    ∀ nd ∈ newStyleNodes c n, n ≤ nd.id := by
  obtain ⟨bt, brr, hla, blp⟩ := c
  cases brr <;> cases hla <;> cases blp <;> simp [newStyleNodes] <;>
    try omega

theorem newStyleNodes_id_lt (c : PrivacyConfig) (n : Nat) :
    ∀ nd ∈ newStyleNodes c n, nd.id < n + (newStyleNodes c n).length := by
  obtain ⟨bt, brr, hla, blp⟩ := c
  cases brr <;> cases hla <;> cases blp <;> simp [newStyleNodes]

theorem guardInv_init (dom : List StyleNode) (nid : Nat) :
    GuardPatchedInv (initPrivacy (initGuardState dom nid)) := by
  simp [GuardPatchedInv, initPrivacy, applyPrivacyRules_eq, initGuardState,
    defaultConfig]

theorem guardInv_update {s : GuardState} (p : PrivacyPatch)
    (h : GuardPatchedInv s) : GuardPatchedInv (updateConfig p s) := by
  obtain ⟨h1, h2, h3, h4⟩ := h
  simp [GuardPatchedInv, updateConfig, applyPrivacyRules_eq, h1, h2, h3, h4]

theorem guardInv_run {s : GuardState} (ps : List PrivacyPatch)
    (h : GuardPatchedInv s) : GuardPatchedInv (runUpdates ps s) := by
  induction ps generalizing s with
  | nil => simpa [runUpdates] using h
  | cons p ps ih => simpa [runUpdates] using ih (guardInv_update p h)

/-! ## Claims -/

/-- Claim C1: the privacy guard's install path is idempotent.  Starting
from module load (originals captured once into `_originalXhrOpen` /
`_originalFetch`) and the mandatory `init()` application, any number of
further configuration applications leaves exactly one wrapper layer on
`XMLHttpRequest.prototype.open` and on `window.fetch`, and one more
invocation never wraps the already-patched functions again. -/
theorem C1_install_idempotent (dom : List StyleNode) (nid : Nat)
    (ps : List PrivacyPatch) (p : PrivacyPatch) :
    (runUpdates ps (initPrivacy (initGuardState dom nid))).xhrLayers = 1 ∧
    (runUpdates ps (initPrivacy (initGuardState dom nid))).fetchLayers = 1 ∧
    (updateConfig p (runUpdates ps (initPrivacy (initGuardState dom nid)))).xhrLayers = 1 ∧
    (updateConfig p (runUpdates ps (initPrivacy (initGuardState dom nid)))).fetchLayers = 1 ∧
    (updateConfig p (runUpdates ps (initPrivacy (initGuardState dom nid)))).xhrPatched = true ∧
    (updateConfig p (runUpdates ps (initPrivacy (initGuardState dom nid)))).fetchPatched = true := by
  have h := guardInv_run ps (guardInv_init dom nid)
  have h2 := guardInv_update p h
  exact ⟨h.2.2.1, h.2.2.2, h2.2.2.1, h2.2.2.2, h2.1, h2.2.1⟩

/-- Claim C2, counterexample: a fetch whose body contains the typing
marker but whose URL contains neither marker is forwarded to the original
primitive, so a request "whose target URL or body contains a marker" is
not always short-circuited. -/
theorem C2_counterexample :
    strIncludes "typing_stop" "typing" = true ∧
    patchedFetch (FetchInput.str "https://example.com/api/send")
        (some ⟨some "typing_stop"⟩) =
      FetchResult.forwarded (FetchInput.str "https://example.com/api/send")
        (some ⟨some "typing_stop"⟩) := by
  exact ⟨by decide, by decide⟩

/-- Claim C2 as amended: with block_typing = true and the patch installed,
blocking is decided by the inspected URL alone — a string input or a
Request's url; any other input yields the empty string and is never
blocked; the body is never inspected — and every call whose inspected URL
contains neither marker is forwarded to the original primitive with
identical arguments. -/
theorem C2_url_blocking (method url : String) (inp : FetchInput)
    (ini ini' : Option FetchInit) :
    (patchedXhrOpen method url = XhrResult.blocked ↔ containsMarker url = true) ∧
    (containsMarker url = false →
      patchedXhrOpen method url = XhrResult.original method url) ∧
    (patchedFetch inp ini = FetchResult.rejected ↔
      (fetchUrlOf inp ≠ "" ∧ containsMarker (fetchUrlOf inp) = true)) ∧
    (containsMarker (fetchUrlOf inp) = false →
      patchedFetch inp ini = FetchResult.forwarded inp ini) ∧
    ((patchedFetch inp ini = FetchResult.rejected) ↔
      (patchedFetch inp ini' = FetchResult.rejected)) := by
  refine ⟨?_, ?_, ?_, ?_, ?_⟩ <;>
    simp only [patchedXhrOpen, patchedFetch] <;> split <;> simp_all

/-- Claim C2 witness: the two markers block, a clean request is forwarded
unchanged. -/
theorem C2_url_blocking_witness :
    containsMarker "https://example.com/messaging/typing" = true ∧
    (patchedXhrOpen "POST" "https://example.com/messaging/typing" =
        XhrResult.blocked ↔
      containsMarker "https://example.com/messaging/typing" = true) ∧
    (containsMarker "https://example.com/inbox" = false →
      patchedXhrOpen "GET" "https://example.com/inbox" =
        XhrResult.original "GET" "https://example.com/inbox") := by
  have h := C2_url_blocking "POST" "https://example.com/messaging/typing"
    (FetchInput.str "https://example.com/inbox") none none
  have h2 := C2_url_blocking "GET" "https://example.com/inbox"
    (FetchInput.str "https://example.com/inbox") none none
  exact ⟨by decide, h.1, h2.2.1⟩

/-- Claim C3, counterexample: the code's PrivacyConfig carries no version
counter, and the active configuration after several pushes depends on
arrival order — the same two pushes applied in the two orders yield
different configurations, so the result is decided by arrival time. -/
theorem C3_counterexample :
    applyPushes defaultConfig
        [⟨some false, some false, some false, some false⟩,
         ⟨some true, some true, some true, some true⟩] =
      ⟨true, true, true, true⟩ ∧
    applyPushes defaultConfig
        [⟨some true, some true, some true, some true⟩,
         ⟨some false, some false, some false, some false⟩] =
      ⟨false, false, false, false⟩ ∧
    (⟨true, true, true, true⟩ : PrivacyConfig) ≠
      ⟨false, false, false, false⟩ := by
  exact ⟨by decide, by decide, by decide⟩

/-- Claim C3 as amended: pushes are applied field-wise in arrival order
(last write wins by arrival time); a push in which every field is present
determines the resulting configuration regardless of what was active
before it.  The code has no version counter. -/
theorem C3_arrival_order (c c' : PrivacyConfig) (ps : List PrivacyPatch)
    (p : PrivacyPatch)
    (h : p.blockTyping.isSome = true ∧ p.blockReadReceipts.isSome = true ∧
         p.hideLastActive.isSome = true ∧ p.blockLinkPreviews.isSome = true) :
    applyPushes c (ps ++ [p]) = mergeConfig (applyPushes c ps) p ∧
    mergeConfig c p = mergeConfig c' p := by
  constructor
  · simp [applyPushes]
  · obtain ⟨h1, h2, h3, h4⟩ := h
    obtain ⟨a, b, d, e⟩ := p
    cases a <;> cases b <;> cases d <;> cases e <;>
      simp_all [mergeConfig]

/-- Claim C3 witness: a full push overrides any prior configuration. -/
theorem C3_arrival_order_witness :
    ((⟨some true, some false, some true, some false⟩ :
        PrivacyPatch).blockTyping.isSome = true ∧
     (⟨some true, some false, some true, some false⟩ :
        PrivacyPatch).blockReadReceipts.isSome = true ∧
     (⟨some true, some false, some true, some false⟩ :
        PrivacyPatch).hideLastActive.isSome = true ∧
     (⟨some true, some false, some true, some false⟩ :
        PrivacyPatch).blockLinkPreviews.isSome = true) ∧
    (applyPushes defaultConfig
        ([] ++ [⟨some true, some false, some true, some false⟩]) =
      mergeConfig (applyPushes defaultConfig [])
        ⟨some true, some false, some true, some false⟩ ∧
     mergeConfig defaultConfig ⟨some true, some false, some true, some false⟩ =
       mergeConfig ⟨false, false, false, false⟩
         ⟨some true, some false, some true, some false⟩) :=
  ⟨⟨rfl, rfl, rfl, rfl⟩,
   C3_arrival_order defaultConfig ⟨false, false, false, false⟩ []
     ⟨some true, some false, some true, some false⟩ ⟨rfl, rfl, rfl, rfl⟩⟩

/-- Claim C4: after any two consecutive rule applications the injected
privacy style nodes are exactly those implied by the latest
configuration's true toggles, in order; every node injected by the first
application has been removed from the document; and on a concrete pair of
configurations the result differs from the union of both configurations'
nodes. -/
theorem C4_styles_latest_config (s : GuardState) (c1 c2 : PrivacyConfig) :
    ((applyPrivacyRules { applyPrivacyRules { s with config := c1 } with
        config := c2 }).styleElements.map StyleNode.css = impliedCss c2) ∧
    (∀ nd ∈ (applyPrivacyRules { s with config := c1 }).styleElements,
      nd ∉ (applyPrivacyRules { applyPrivacyRules { s with config := c1 } with
        config := c2 }).domNodes) ∧
    ((applyPrivacyRules
        { applyPrivacyRules { initGuardState [] 0 with config := defaultConfig } with
          config := ⟨true, false, false, true⟩ }).styleElements.map StyleNode.css ≠
      impliedCss defaultConfig ++ impliedCss ⟨true, false, false, true⟩) := by
  refine ⟨?_, ?_, by decide⟩
  · rw [applyPrivacyRules_eq]
    exact newStyleNodes_css c2 _
  · intro nd hnd hmem
    rw [applyPrivacyRules_eq { s with config := c1 }] at hnd
    simp only at hnd
    rw [applyPrivacyRules_eq] at hmem
    simp only [List.mem_append, List.mem_filter] at hmem
    rcases hmem with ⟨hin, hdec⟩ | hnew
    · rw [applyPrivacyRules_eq { s with config := c1 }] at hdec
      simp only at hdec
      rw [decide_eq_true_iff] at hdec
      exact hdec hnd
    · have hge := newStyleNodes_id_ge _ _ nd hnew
      have hlt := newStyleNodes_id_lt c1 s.nextId nd hnd
      rw [applyPrivacyRules_eq { s with config := c1 }] at hge
      simp only at hge
      omega

/-- Claim C5: parseUnreadCount yields 12, 7 and none on the three
reference titles, and in general yields the parenthesized-count match when
there is one and otherwise the separator-count match. -/
theorem C5_parseUnreadCount :
    parseUnreadCount "(12) Messenger" = some 12 ∧
    parseUnreadCount "Messenger · 7" = some 7 ∧
    parseUnreadCount "Messenger" = none ∧
    ∀ t : String, parseUnreadCount t =
      ((scanParen t.data).orElse (fun _ => scanDot t.data)) := by
  refine ⟨by decide, by decide, by decide, ?_⟩
  intro t
  cases h : scanParen t.data <;> simp [parseUnreadCount, h, Option.orElse]

/-- Claim C6: forwarding a count equal to the last forwarded value issues
zero commands; two consecutive forwards of the same value issue at most
one command in total — exactly one when the value differs from the prior
state, and in particular exactly one from the initial state. -/
theorem C6_dedup (last count : Int) (n : Nat) :
    (updateUnreadCount last count).2 = (if count = last then [] else [count]) ∧
    (updateUnreadCount (updateUnreadCount last count).1 count).2 = [] ∧
    ((updateUnreadCount last count).2 ++
      (updateUnreadCount (updateUnreadCount last count).1 count).2) =
      (if count = last then [] else [count]) ∧
    ((updateUnreadCount initialLastUnread (n : Int)).2 ++
      (updateUnreadCount
        (updateUnreadCount initialLastUnread (n : Int)).1 (n : Int)).2) =
      [(n : Int)] := by
  have hne : ¬ ((n : Int) = -1) := by omega
  by_cases h : count = last <;>
    simp [updateUnreadCount, h, initialLastUnread, hne]

/-- Claim C7, counterexample: the payload `default` names no entry of the
theme table, yet the set-theme listener routes it to removeTheme — from a
state with the dark theme applied it changes the applied theme and logs no
rejection. -/
theorem C7_counterexample :
    themeLookup "default" = none ∧
    (onSetTheme "default" ⟨"dark", some "body\x7bbackground:#1a1a2e\x7d"⟩).1 ≠
      (⟨"dark", some "body\x7bbackground:#1a1a2e\x7d"⟩ : ThemeState) ∧
    (onSetTheme "default" ⟨"dark", some "body\x7bbackground:#1a1a2e\x7d"⟩).2 =
      false := by
  exact ⟨by decide, by decide, by decide⟩

/-- Claim C7 as amended: for every payload that is neither of the reserved
control strings `remove` and `default` and names no entry of the theme
table, the set-theme event leaves the theme state unchanged and logs a
rejection — the name is never substituted with a default theme. -/
theorem C7_unknown_theme_rejected (name : String) (s : ThemeState)
    (h1 : themeLookup name = none) (h2 : name ≠ "remove")
    (h3 : name ≠ "default") :
    onSetTheme name s = (s, true) := by
  simp [onSetTheme, h2, h3, applyTheme, h1]

/-- Claim C7 witness: an unknown name on a dark-themed state is a logged
no-op. -/
theorem C7_unknown_theme_rejected_witness :
    themeLookup "solarized" = none ∧
    "solarized" ≠ "remove" ∧ "solarized" ≠ "default" ∧
    onSetTheme "solarized" initThemeState = (initThemeState, true) :=
  ⟨by decide, by decide, by decide,
   C7_unknown_theme_rejected "solarized" initThemeState (by decide)
     (by decide) (by decide)⟩

/-- Claim C8: after intercept(), constructing a page notification issues
one `show_notification` command carrying the structured title, body, icon
and tag fields (falsy fields collapsing to the empty string) and presents
zero page-visible notifications, while the shim's `permission` and
`requestPermission` surfaces observe exactly the original's state.  The
interceptor starts enabled. -/
theorem C8_notification_forwarding (orig : OrigNotifApi) (title : String)
    (o : Option NotifOptions) (e : Bool) :
    interceptedConstruct true title o =
      ([⟨title, (o.bind NotifOptions.body).getD "",
         (o.bind NotifOptions.icon).getD "",
         (o.bind NotifOptions.tag).getD ""⟩], 0) ∧
    (interceptedConstruct e title o).2 = 0 ∧
    (interceptApi orig).permission = orig.permission ∧
    (interceptApi orig).requestPermissionResult =
      orig.requestPermissionResult ∧
    interceptorEnabledDefault = true := by
  refine ⟨rfl, ?_, rfl, rfl, rfl⟩
  cases e <;> simp [interceptedConstruct]

/-- Claim C9: once the network patch is installed, any further
configuration push — including one that turns blockTyping off — leaves
both primitives patched with their layer counts unchanged; the installed
behaviours are the config-independent patched wrappers, which still block
a typing URL. -/
theorem C9_patch_permanent (s : GuardState) (p : PrivacyPatch)
    (m u : String) (inp : FetchInput) (ini : Option FetchInit)
    (hx : s.xhrPatched = true) (hf : s.fetchPatched = true) :
    (updateConfig p s).xhrPatched = true ∧
    (updateConfig p s).fetchPatched = true ∧
    (updateConfig p s).xhrLayers = s.xhrLayers ∧
    (updateConfig p s).fetchLayers = s.fetchLayers ∧
    xhrOpenBehavior (updateConfig p s) m u = patchedXhrOpen m u ∧
    fetchBehavior (updateConfig p s) inp ini = patchedFetch inp ini ∧
    patchedXhrOpen "POST" "https://edge-chat.messenger.com/typing" =
      XhrResult.blocked := by
  refine ⟨?_, ?_, ?_, ?_, ?_, ?_, by decide⟩ <;>
    simp [updateConfig, applyPrivacyRules_eq, hx, hf, xhrOpenBehavior,
      fetchBehavior]

/-- Claim C9 witness: after init, a push turning blockTyping off leaves
the patch in place and blocking. -/
theorem C9_patch_permanent_witness :
    (initPrivacy (initGuardState [] 0)).xhrPatched = true ∧
    (initPrivacy (initGuardState [] 0)).fetchPatched = true ∧
    ((updateConfig ⟨some false, none, none, none⟩
        (initPrivacy (initGuardState [] 0))).xhrPatched = true ∧
     (updateConfig ⟨some false, none, none, none⟩
        (initPrivacy (initGuardState [] 0))).fetchPatched = true ∧
     (updateConfig ⟨some false, none, none, none⟩
        (initPrivacy (initGuardState [] 0))).xhrLayers =
       (initPrivacy (initGuardState [] 0)).xhrLayers ∧
     (updateConfig ⟨some false, none, none, none⟩
        (initPrivacy (initGuardState [] 0))).fetchLayers =
       (initPrivacy (initGuardState [] 0)).fetchLayers ∧
     xhrOpenBehavior (updateConfig ⟨some false, none, none, none⟩
        (initPrivacy (initGuardState [] 0))) "GET"
        "https://example.com/typing" =
       patchedXhrOpen "GET" "https://example.com/typing" ∧
     fetchBehavior (updateConfig ⟨some false, none, none, none⟩
        (initPrivacy (initGuardState [] 0)))
        (FetchInput.str "https://example.com/typing") none =
       patchedFetch (FetchInput.str "https://example.com/typing") none ∧
     patchedXhrOpen "POST" "https://edge-chat.messenger.com/typing" =
       XhrResult.blocked) := by
  have hx : (initPrivacy (initGuardState [] 0)).xhrPatched = true := by decide
  have hf : (initPrivacy (initGuardState [] 0)).fetchPatched = true := by decide
  exact ⟨hx, hf,
    C9_patch_permanent (initPrivacy (initGuardState [] 0))
      ⟨some false, none, none, none⟩ "GET" "https://example.com/typing"
      (FetchInput.str "https://example.com/typing") none hx hf⟩

/-- Claim C10: applyTheme rejects exactly the names whose table entry is
absent or the empty string; the built-in light theme maps to the empty
string, so every applyTheme of `light` — the call init makes included —
logs the unknown-theme error and leaves the state unchanged. -/
theorem C10_light_always_rejected (name : String) (s : ThemeState) :
    (applyTheme name s = (s, true) ↔
      (themeLookup name = none ∨ themeLookup name = some "")) ∧
    themeLookup "light" = some "" ∧
    applyTheme "light" s = (s, true) ∧
    applyTheme "light" initThemeState = (initThemeState, true) := by
  have hl : themeLookup "light" = some "" := by decide
  refine ⟨?_, hl, ?_, ?_⟩
  · cases h : themeLookup name with
    | none => simp [applyTheme, h]
    | some css =>
      by_cases hc : css = "" <;> simp [applyTheme, h, hc, Prod.ext_iff]
  · simp [applyTheme, hl]
  · simp [applyTheme, hl]
